import Mathlib

/-!
Verification of the FreelancerBid bid-decision workflow.

Shallow embedding of the decision logic of `freelancer_Bakcend/freelancer_agent_u.py`
(eligibility filtering in `find_projects` and `check_project_status`, bid sizing in
`get_typical_bid_amount` and `estimate_completion_time`, the submission path
`submit_bid` / `main`, the tool `get_project_details`) and of
`freelancer_Bakcend/freelancer_tool.py` (`place_bid`).

Modelling conventions: optional dictionary keys become `Option`; a field mapped to
`none` models an absent key; Python float amounts become `ℚ`; Python truthiness of
optional strings and numbers is made explicit (`truthyStr`, `truthyQ`).
-/

namespace FreelancerBid

/-- Python `str.lower()` modelled over the character list. -/
def strLower (s : String) : String := ⟨s.data.map Char.toLower⟩

/-- Python `needle in hay` for strings: `needle` occurs as a contiguous substring. -/
def strContains (hay needle : String) : Bool :=
  (List.range (hay.data.length + 1)).any fun i => needle.data.isPrefixOf (hay.data.drop i)

/-- Python truthiness of an optional string: `None` and `""` are falsy. -/
def truthyStr : Option String → Bool
  | none => false
  | some s => !(s == "")

/-- Python truthiness of an optional number: `None` and `0` are falsy. -/
def truthyQ : Option ℚ → Bool
  | none => false
  | some x => !(x == 0)

/-- `active_states = ['active', 'open', 'published']` (freelancer_agent_u.py line 558). -/
def ACTIVE_STATES : List String := ["active", "open", "published"]

/-- Truthiness of Python `st and st in active_states`. -/
def inActive (st : Option String) : Bool :=
  truthyStr st &&
    (match st with
     | some s => ACTIVE_STATES.contains s
     | none => false)

/-- `project.get('budget', {})`: each budget key may be absent. -/
structure Budget where
  minimum : Option ℚ := none
  maximum : Option ℚ := none
  deriving DecidableEq

/-- The fields of a marketplace project record that the decision logic reads. -/
structure Project where
  id : Option ℤ := none
  status : Option String := none
  frontend_status : Option String := none
  sub_status : Option String := none
  budget : Budget := {}
  description : Option String := none
  deriving DecidableEq

/-- The biddability test applied to each search result inside `find_projects`
(freelancer_agent_u.py lines 552-565): active `status`, or active
`frontend_status`, or all three status fields falsy. -/
def is_biddable_listing (p : Project) : Bool :=
  inActive p.status || inActive p.frontend_status ||
    (!truthyStr p.status && !truthyStr p.frontend_status && !truthyStr p.sub_status)

/-- The biddability test inside `check_project_status` (freelancer_agent_u.py lines
860-875): `sub_status` is read at line 863 but the absence branch at line 871 only
tests `status` and `frontend_status`. -/
def is_biddable_recheck (p : Project) : Bool :=
  inActive p.status || inActive p.frontend_status ||
    (!truthyStr p.status && !truthyStr p.frontend_status)

/-- A past bid: `bid.get('amount')` may be absent. -/
structure BidEntry where
  amount : Option ℚ := none
  deriving DecidableEq

/-- The fields of `BidderAgentDeps` read by the sizing tools. `bid_history` and
`typical_bid_amount` default to `None` in the dataclass. -/
structure BidderAgentDeps where
  project : Project
  bid_history : Option (List BidEntry) := none
  typical_bid_amount : Option ℚ := none
  deriving DecidableEq

/-- Round a rational to the nearest integer, ties to even. -/
def roundHalfEven (q : ℚ) : ℤ :=
  let f := Rat.floor q
  let frac := q - f
  if frac < 1/2 then f
  else if 1/2 < frac then f + 1
  else if f % 2 = 0 then f else f + 1

/-- Python `round(x, 2)` modelled over the rationals (nearest hundredth, ties to
even). -/
def round2 (q : ℚ) : ℚ := (roundHalfEven (100 * q) : ℚ) / 100

/-- `[bid.get('amount', 0) for bid in bid_history if bid.get('amount')]`
(freelancer_agent_u.py line 277): the amounts that are present and nonzero. -/
def pastBids (history : List BidEntry) : List ℚ :=
  (history.filter fun b => truthyQ b.amount).map fun b => b.amount.getD 0

/-- `get_typical_bid_amount` (freelancer_agent_u.py lines 247-283): an explicit
truthy override is returned as is; otherwise the budget midpoint (maximum
defaulting to the minimum when absent, 500 when the minimum is absent) is blended
with the average of the truthy history amounts and rounded to 2 decimals. -/
def get_typical_bid_amount (deps : BidderAgentDeps) : ℚ :=
  if truthyQ deps.typical_bid_amount then deps.typical_bid_amount.getD 0
  else
    let min_budget := deps.project.budget.minimum
    let max_budget := deps.project.budget.maximum <|> min_budget
    let typical0 : ℚ :=
      match min_budget, max_budget with
      | some mn, some mx => (mn + mx) / 2
      | _, _ => 500
    let typical1 : ℚ :=
      match deps.bid_history with
      | some hist =>
          if hist.isEmpty then typical0
          else
            let past := pastBids hist
            if past.isEmpty then typical0
            else (typical0 + past.sum / (past.length : ℚ)) / 2
      | none => typical0
    round2 typical1

/-- Keywords of the urgency branch of `estimate_completion_time` (line 300). -/
def URGENT_WORDS : List String := ["urgent", "asap", "immediately"]

/-- Keywords of the complexity branch of `estimate_completion_time` (line 302). -/
def COMPLEX_WORDS : List String := ["complex", "extensive", "comprehensive"]

/-- `estimate_completion_time` (freelancer_agent_u.py lines 285-305): keyword scan
over the lowercased description, urgency first, then complexity, else 7 days. -/
def estimate_completion_time (p : Project) : Nat :=
  let description := p.description.getD ""
  if URGENT_WORDS.any (fun w => strContains (strLower description) w) then 3
  else if COMPLEX_WORDS.any (fun w => strContains (strLower description) w) then 14
  else 7

/-- What the `get_project_details` tool returns: an error dictionary, a project
record, or the impossible out-of-range list access. -/
inductive DetailsResult where
  | error (msg : String)
  | ok (p : Project)
  | outOfRange
  deriving DecidableEq

/-- `get_project_details` (freelancer_agent_u.py lines 146-193 and
freelancer_agent.py lines 134-181, identical logic): guard the empty list and the
1-based index range, then read `projects[project_index - 1]`; an id-bearing project
triggers a detail fetch whose failure is caught into an error dictionary.
`fetch` stands for the remote `get_project_by_id` call. -/
def get_project_details (fetch : Project → Except String Project)
    (projects : List Project) (project_index : ℤ) : DetailsResult :=
  if projects.isEmpty then .error "No projects available in search results"
  else if project_index < 1 || (projects.length : ℤ) < project_index then
    .error "Invalid project index"
  else
    match projects.get? (project_index - 1).toNat with
    | some project =>
        match project.id with
        | some i =>
            if i ≠ 0 then
              match fetch project with
              | .ok detailed => .ok detailed
              | .error e => .error ("Error fetching project details: " ++ e)
            else .ok project
        | none => .ok project
    | none => .outOfRange

/-- A successful bid record returned by `place_project_bid`. -/
structure BidRes where
  id : ℤ
  amount : ℚ
  deriving DecidableEq

/-- One run's view of the marketplace collaborator: the fresh project-detail fetch
used by `check_project_status` (which may raise or find nothing) and the outcome
of `place_project_bid` (`.error` models a raised exception). -/
structure Marketplace where
  freshProject : Option Project := none
  fetchRaises : Bool := false
  bidOutcome : Except String BidRes := .error "unused"

/-- `check_project_status` (freelancer_agent_u.py lines 829-879): any exception or
a missing project yields `False`; otherwise the status test `is_biddable_recheck`. -/
def check_project_status (m : Marketplace) : Bool :=
  if m.fetchRaises then false
  else
    match m.freshProject with
    | none => false
    | some p => is_biddable_recheck p

/-- `submit_bid` (freelancer_agent_u.py lines 881-922) as (result handed to
`display_bid_result`, number of `place_project_bid` calls): a failed re-check
returns `None` without calling submit; a raised `place_project_bid` exception is
caught and `None` is returned; no retry happens. -/
def submit_bid (m : Marketplace) : Option BidRes × Nat :=
  if check_project_status m then
    match m.bidOutcome with
    | .ok r => (some r, 1)
    | .error _ => (none, 1)
  else (none, 0)

/-- How a run of `main` ends once a proposal is displayed. -/
inductive MainOutcome where
  | submitted (result : Option BidRes)
  | cancelled
  deriving DecidableEq

/-- The confirmation tail of `main` (freelancer_agent_u.py lines 1080-1084):
`input(...).lower() == 'y'` guards the call to `submit_bid`; any other input ends
the run with no submission. -/
def main_confirm_step (userInput : String) (m : Marketplace) : MainOutcome × Nat :=
  if strLower userInput == "y" then
    let r := submit_bid m
    (.submitted r.1, r.2)
  else (.cancelled, 0)

/-- `place_bid` of freelancer_tool.py (lines 183-225) as (result, number of
`place_project_bid` calls): anything other than the literal `CONFIRM` cancels;
a `BidNotPlacedException` is caught and `None` returned. -/
def place_bid (confirm : String) (outcome : Except String BidRes) : Option BidRes × Nat :=
  if confirm ≠ "CONFIRM" then (none, 0)
  else
    match outcome with
    | .ok r => (some r, 1)
    | .error _ => (none, 1)

/-- The amount rule exactly as claim C4 words it: base is the budget midpoint when
both minimum and maximum are present, otherwise 500; an entry "with an amount" is
one whose amount is present; blend with their mean when at least one exists;
round to 2 decimals. -/
def compute_bid_amount_claim (project : Project) (bid_history : Option (List BidEntry)) : ℚ :=
  let base : ℚ :=
    match project.budget.minimum, project.budget.maximum with
    | some mn, some mx => (mn + mx) / 2
    | _, _ => 500
  let amts := (bid_history.getD []).filterMap fun b => b.amount
  round2 (if amts.isEmpty then base else (base + amts.sum / (amts.length : ℚ)) / 2)

/-- The amount rule of claim C4 as amended to match the code: when the minimum is
present the base is the midpoint with a missing maximum defaulting to the minimum,
500 only when the minimum is absent; only entries with a present nonzero amount
count as history; blend with their mean; round to 2 decimals. -/
def compute_bid_amount_amended (project : Project) (bid_history : Option (List BidEntry)) : ℚ :=
  let base : ℚ :=
    match project.budget.minimum with
    | some mn => (mn + project.budget.maximum.getD mn) / 2
    | none => 500
  let amts := ((bid_history.getD []).filter fun b => truthyQ b.amount).map fun b => b.amount.getD 0
  round2 (if amts.isEmpty then base else (base + amts.sum / (amts.length : ℚ)) / 2)


/-- Claim C1, counterexample: a record whose only status field is
`sub_status = "pending"` (a value not in ACTIVE) is classified biddable by the
pre-submission re-check of `check_project_status`, which ignores `sub_status`,
even though the listing-time check rejects it. -/
theorem c1_cex :
    is_biddable_recheck { sub_status := some "pending" } = true ∧
    ACTIVE_STATES.contains "pending" = false ∧
    is_biddable_listing { sub_status := some "pending" } = false := by decide

/-- Claim C1 as amended: when `status` and `frontend_status` are absent and
`sub_status` holds a non-empty string not in ACTIVE, the listing-time check
classifies the project as not biddable, but `check_project_status` classifies it
as biddable. -/
theorem c1_amended (p : Project) (s : String) (hs : p.status = none)
    (hf : p.frontend_status = none) (hsub : p.sub_status = some s)
    (hne : s ≠ "") (_hact : s ∉ ACTIVE_STATES) :
    is_biddable_listing p = false ∧ is_biddable_recheck p = true := by
  simp [is_biddable_listing, is_biddable_recheck, inActive, truthyStr, hs, hf, hsub, hne]

theorem c1_witness :
    is_biddable_listing { sub_status := some "on_hold" } = false ∧
    is_biddable_recheck { sub_status := some "on_hold" } = true :=
  c1_amended _ "on_hold" rfl rfl rfl (by decide) (by decide)

/-- Claim C2, counterexample: when the fresh fetch shows status "closed" the
re-check classifies the project not biddable, `place_project_bid` is not called
(0 calls), and the run's result is `none` — no Failed record carrying
"project no longer biddable" is produced. -/
theorem c2_cex :
    check_project_status
      { freshProject := some { status := some "closed" }, bidOutcome := .ok ⟨7, 100⟩ } = false ∧
    submit_bid
      { freshProject := some { status := some "closed" }, bidOutcome := .ok ⟨7, 100⟩ } = (none, 0) := by
  decide

/-- Claim C2 as amended: whenever the pre-submission re-check classifies the
project as not biddable, `submit_bid` performs zero `place_project_bid` calls and
returns `None` (after printing a warning) instead of a Failed result with a
reason. -/
theorem c2_amended (m : Marketplace) (h : check_project_status m = false) :
    submit_bid m = (none, 0) := by
  simp [submit_bid, h]

theorem c2_witness :
    submit_bid { freshProject := none, bidOutcome := .ok ⟨1, 50⟩ } = (none, 0) :=
  c2_amended _ (by decide)

/-- Claim C3, counterexample: the confirmation prompt of `main` lowercases the
operator input, so the input "Y", which is not the literal affirmative token "y",
still leads to one `place_project_bid` call. -/
theorem c3_cex :
    main_confirm_step "Y"
      { freshProject := some { status := some "active" }, bidOutcome := .ok ⟨7, 100⟩ }
      = (.submitted (some ⟨7, 100⟩), 1) ∧ "Y" ≠ "y" := by decide

/-- Claim C3 as amended: `main` accepts exactly the inputs whose lowercasing is
"y"; any other input ends the run with no submission call, and `place_bid` of
freelancer_tool.py cancels on anything but the exact literal "CONFIRM". -/
theorem c3_amended :
    (∀ (s : String) (m : Marketplace), strLower s ≠ "y" →
        main_confirm_step s m = (.cancelled, 0)) ∧
    (∀ (c : String) (oc : Except String BidRes), c ≠ "CONFIRM" →
        place_bid c oc = (none, 0)) := by
  constructor
  · intro s m h
    simp [main_confirm_step, h]
  · intro c oc h
    simp [place_bid, h]

theorem c3_witness :
    main_confirm_step "n" { freshProject := none, bidOutcome := .error "x" } = (.cancelled, 0) ∧
    place_bid "nope" (.ok ⟨2, 10⟩) = (none, 0) :=
  ⟨c3_amended.1 "n" _ (by decide), c3_amended.2 "nope" _ (by decide)⟩

/-- Claim C4, counterexample: a budget with only a minimum of 100 makes
`get_typical_bid_amount` return 100 (the midpoint with the maximum defaulted to
the minimum), while the claim's rule, which falls back to 500 whenever either
bound is missing, gives 500. -/
theorem c4_cex :
    get_typical_bid_amount { project := { budget := { minimum := some 100 } } } = 100 ∧
    compute_bid_amount_claim { budget := { minimum := some 100 } } none = 500 ∧
    (100 : ℚ) ≠ 500 := by
  refine ⟨?_, ?_, by norm_num⟩
  · norm_num [get_typical_bid_amount, truthyQ, round2, roundHalfEven, Rat.floor]
  · norm_num [compute_bid_amount_claim, round2, roundHalfEven, Rat.floor]

/-- Claim C4 as amended: with no explicit override the code computes
`compute_bid_amount_amended`: base is the budget midpoint whenever the minimum is
present (a missing maximum defaults to the minimum) and 500 only when the minimum
is absent; entries with a present nonzero amount are averaged and blended; the
result is rounded to 2 decimals. The claim's two numeric instances hold:
budget (100,200) with no history gives 150 and with history [120,130] gives
137.50. -/
theorem c4_amended :
    (∀ deps : BidderAgentDeps, deps.typical_bid_amount = none →
        get_typical_bid_amount deps
          = compute_bid_amount_amended deps.project deps.bid_history) ∧
    get_typical_bid_amount
      { project := { budget := { minimum := some 100, maximum := some 200 } } } = 150 ∧
    get_typical_bid_amount
      { project := { budget := { minimum := some 100, maximum := some 200 } },
        bid_history := some [{ amount := some 120 }, { amount := some 130 }] } = 137.5 := by
  refine ⟨?_, ?_, ?_⟩
  · rintro ⟨⟨pid, st, fs, ss, ⟨mn, mx⟩, desc⟩, hist, ov⟩ h
    simp only at h
    subst h
    rcases hist with _ | ⟨_ | ⟨b, l⟩⟩ <;> rcases mn with _ | a <;> rcases mx with _ | c <;>
      simp [get_typical_bid_amount, compute_bid_amount_amended, truthyQ, pastBids,
        Option.orElse, List.isEmpty_iff]
  · norm_num [get_typical_bid_amount, truthyQ, round2, roundHalfEven, Rat.floor]
  · norm_num [get_typical_bid_amount, truthyQ, pastBids, round2, roundHalfEven, Rat.floor]

theorem c4_witness :
    get_typical_bid_amount { project := { budget := { minimum := some 5 } } }
      = compute_bid_amount_amended { budget := { minimum := some 5 } } none :=
  c4_amended.1 _ rfl

/-- Claim C5, counterexample: an explicit override of 0 is falsy in Python, so
`get_typical_bid_amount` ignores it and computes 150 from the budget instead of
returning the supplied 0. -/
theorem c5_cex :
    get_typical_bid_amount
      { project := { budget := { minimum := some 100, maximum := some 200 } },
        typical_bid_amount := some 0 } = 150 ∧ (150 : ℚ) ≠ 0 := by
  refine ⟨?_, by norm_num⟩
  norm_num [get_typical_bid_amount, truthyQ, round2, roundHalfEven, Rat.floor]

/-- Claim C5 as amended: every supplied nonzero override is returned unchanged,
whatever the budget and history — without rounding. -/
theorem c5_amended (deps : BidderAgentDeps) (t : ℚ)
    (h : deps.typical_bid_amount = some t) (hne : t ≠ 0) :
    get_typical_bid_amount deps = t := by
  simp [get_typical_bid_amount, truthyQ, h, hne]

theorem c5_witness :
    get_typical_bid_amount { project := {}, typical_bid_amount := some 42 } = 42 :=
  c5_amended _ 42 rfl (by norm_num)

/-- Claim C6: the period estimate scans the lowercased description with urgency
keywords first (3 days), then complexity keywords (14 days), else 7 days; a
description containing both "ASAP" and "comprehensive" yields 3. -/
theorem c6_period_precedence :
    (∀ p : Project,
        URGENT_WORDS.any (fun w => strContains (strLower (p.description.getD "")) w) = true →
        estimate_completion_time p = 3) ∧
    (∀ p : Project,
        URGENT_WORDS.any (fun w => strContains (strLower (p.description.getD "")) w) = false →
        COMPLEX_WORDS.any (fun w => strContains (strLower (p.description.getD "")) w) = true →
        estimate_completion_time p = 14) ∧
    (∀ p : Project,
        URGENT_WORDS.any (fun w => strContains (strLower (p.description.getD "")) w) = false →
        COMPLEX_WORDS.any (fun w => strContains (strLower (p.description.getD "")) w) = false →
        estimate_completion_time p = 7) ∧
    estimate_completion_time
      { description := some "Need this ASAP: a comprehensive redesign" } = 3 := by
  refine ⟨?_, ?_, ?_, by decide⟩
  · intro p h1
    simp [estimate_completion_time, h1]
  · intro p h1 h2
    simp [estimate_completion_time, h1, h2]
  · intro p h1 h2
    simp [estimate_completion_time, h1, h2]

theorem c6_witness : estimate_completion_time { description := some "urgent fix" } = 3 :=
  c6_period_precedence.1 _ (by decide)

/-- Claim C7: a project with all three status fields absent is classified
biddable both by the listing-time filter and by the re-check. -/
theorem c7_all_absent_biddable (p : Project) (hs : p.status = none)
    (hf : p.frontend_status = none) (hsub : p.sub_status = none) :
    is_biddable_listing p = true ∧ is_biddable_recheck p = true := by
  simp [is_biddable_listing, is_biddable_recheck, inActive, truthyStr, hs, hf, hsub]

theorem c7_witness :
    is_biddable_listing { description := some "d" } = true ∧
    is_biddable_recheck { description := some "d" } = true :=
  c7_all_absent_biddable _ rfl rfl rfl

/-- Claim C8: a project whose `status` is "closed", "frozen" or "cancelled" and
whose `frontend_status` is not (truthily) in ACTIVE is classified not biddable by
the listing-time filter and by the re-check. -/
theorem c8_inactive_status_not_biddable (p : Project) (s : String)
    (hs : p.status = some s) (hmem : s = "closed" ∨ s = "frozen" ∨ s = "cancelled")
    (hf : inActive p.frontend_status = false) :
    is_biddable_listing p = false ∧ is_biddable_recheck p = false := by
  have h1 : inActive p.status = false := by
    rcases hmem with h | h | h <;> subst h <;> rw [hs] <;> decide
  have h2 : truthyStr p.status = true := by
    rcases hmem with h | h | h <;> subst h <;> rw [hs] <;> decide
  simp [is_biddable_listing, is_biddable_recheck, h1, h2, hf]

theorem c8_witness :
    is_biddable_listing { status := some "frozen" } = false ∧
    is_biddable_recheck { status := some "frozen" } = false :=
  c8_inactive_status_not_biddable _ "frozen" rfl (Or.inr (Or.inl rfl)) (by decide)

/-- Claim C9, counterexample: with a biddable fresh project and a
`place_project_bid` call that raises "bid rejected", `submit_bid` catches the
error after exactly one call and returns `none` — no Failed result carrying the
reason message is produced. -/
theorem c9_cex :
    check_project_status
      { freshProject := some { status := some "active" }, bidOutcome := .error "bid rejected" } = true ∧
    submit_bid
      { freshProject := some { status := some "active" }, bidOutcome := .error "bid rejected" }
      = (none, 1) := by decide

/-- Claim C9 as amended: a marketplace error during submission is caught at the
`submit_bid` boundary (the function stays total and returns `None` after logging)
and exactly one `place_project_bid` call is made — no retry; but no Failed result
carrying the reason is returned. -/
theorem c9_amended (m : Marketplace) (msg : String) (hc : check_project_status m = true)
    (he : m.bidOutcome = .error msg) : submit_bid m = (none, 1) := by
  simp [submit_bid, hc, he]

theorem c9_witness :
    submit_bid
      { freshProject := some { frontend_status := some "open" },
        bidOutcome := .error "server fault" } = (none, 1) :=
  c9_amended _ "server fault" (by decide) rfl

/-- Claim C10: `get_project_details` answers an error dictionary on an empty
project list or a 1-based index out of range, and its list access is never out of
bounds. -/
theorem c10_details_guarded (fetch : Project → Except String Project)
    (projects : List Project) (project_index : ℤ) :
    ((projects = [] ∨ project_index < 1 ∨ (projects.length : ℤ) < project_index) →
      ∃ msg, get_project_details fetch projects project_index = .error msg) ∧
    get_project_details fetch projects project_index ≠ DetailsResult.outOfRange := by
  constructor
  · intro h
    unfold get_project_details
    rcases h with h | h | h
    · subst h
      simp
    · have hempty : projects.isEmpty = true ∨ projects.isEmpty = false := by
        cases projects.isEmpty <;> simp
      rcases hempty with he | he <;> simp [he, h]
    · have hempty : projects.isEmpty = true ∨ projects.isEmpty = false := by
        cases projects.isEmpty <;> simp
      rcases hempty with he | he <;> simp [he, h]
  · unfold get_project_details
    split
    · simp
    · split
      · simp
      · rename_i hne hcond
        have hb : ¬(project_index < 1 ∨ (projects.length : ℤ) < project_index) := by
          simpa using hcond
        push_neg at hb
        have hlt : (project_index - 1).toNat < projects.length := by omega
        cases hq : projects.get? (project_index - 1).toNat with
        | none =>
          have hlen := List.get?_eq_none.mp hq
          omega
        | some project =>
          simp only [hq]
          cases hid : project.id with
          | none => simp [hid]
          | some i =>
            by_cases hz : i = 0
            · simp [hid, hz]
            · cases hfetch : fetch project with
              | ok d => simp [hid, hz, hfetch]
              | error e => simp [hid, hz, hfetch]

theorem c10_witness :
    (∃ msg, get_project_details (fun p => Except.ok p) [] 1 = .error msg) ∧
    get_project_details (fun p => Except.ok p) [] 1 ≠ DetailsResult.outOfRange :=
  ⟨(c10_details_guarded (fun p => Except.ok p) [] 1).1 (Or.inl rfl),
   (c10_details_guarded (fun p => Except.ok p) [] 1).2⟩

end FreelancerBid
